import Mathlib

/-!
Verification of a 2D discrete-time particle physics simulator.

The embedding models the reference implementation (particle.py and
simulation.py): particles are discs with position, velocity, mass and
radius over the reals; the world advances by semi-implicit Euler
integration, boundary reflection and pairwise elastic impulse
collision resolution.
-/

noncomputable section

open scoped Classical

/-- 2D vectors, componentwise arithmetic. -/
abbrev Vec2 := ℝ × ℝ

/-- Dot product of two 2D vectors (np.dot on length-2 arrays). -/
def dot (a b : Vec2) : ℝ := a.1 * b.1 + a.2 * b.2

/-- Euclidean norm of a 2D vector (np.linalg.norm). -/
def vnorm (a : Vec2) : ℝ := Real.sqrt (dot a a)

/-- Error type: the single error kind of the system, ValueError in the
reference code, `InvalidParameter` in the specification. -/
inductive SimError where
  | invalidParameter
deriving DecidableEq

/-- A particle: disc with position, velocity, mass and radius
(Particle in particle.py). -/
structure Particle where
  position : Vec2
  velocity : Vec2
  mass : ℝ
  radius : ℝ

instance : Inhabited Particle := ⟨⟨(0, 0), (0, 0), 1, 1⟩⟩

/-- Particle.__init__: validates mass and radius, then stores the fields.
The Python defaults are position=(0,0), velocity=(0,0), mass=1, radius=1. -/
def Particle.make (position velocity : Vec2) (mass radius : ℝ) :
    Except SimError Particle :=
  if mass ≤ 0 then .error .invalidParameter
  else if radius ≤ 0 then .error .invalidParameter
  else .ok ⟨position, velocity, mass, radius⟩

/-- Particle.update: semi-implicit Euler step.  The velocity is updated
first (velocity += acceleration * dt) and the position then uses the
updated velocity (position += velocity * dt). -/
def Particle.update (p : Particle) (dt : ℝ) (acceleration : Vec2) : Particle :=
  let v := p.velocity + dt • acceleration
  { p with velocity := v, position := p.position + dt • v }

/-- Particle.kinetic_energy: 0.5 * mass * dot(velocity, velocity). -/
def Particle.kinetic_energy (p : Particle) : ℝ :=
  0.5 * p.mass * dot p.velocity p.velocity

/-- Particle.momentum: mass * velocity. -/
def Particle.momentum (p : Particle) : Vec2 := p.mass • p.velocity

/-- Particle.distance_to: Euclidean norm of the difference of positions. -/
def Particle.distance_to (p other : Particle) : ℝ :=
  vnorm (p.position - other.position)

/-- Particle.collides_with: distance strictly below the sum of radii. -/
def Particle.collides_with (p other : Particle) : Prop :=
  p.distance_to other < p.radius + other.radius

/-- The simulation world: particle collection, gravity, optional bounds,
clock (Simulation in simulation.py). -/
structure Simulation where
  particles : List Particle
  gravity : Vec2
  bounds : Option (ℝ × ℝ)
  time : ℝ

/-- One particle's pass of Simulation._handle_boundary_collisions.
The four wall checks run sequentially and each later check reads the
coordinate already rewritten by an earlier one, exactly as the Python
code mutates pos in place. -/
def reflectBoundary (width height : ℝ) (p : Particle) : Particle :=
  let r := p.radius
  let x0 := p.position.1
  let vx0 := p.velocity.1
  let y0 := p.position.2
  let vy0 := p.velocity.2
  let x1 := if x0 - r < 0 then r else x0
  let vx1 := if x0 - r < 0 then |vx0| else vx0
  let x2 := if x1 + r > width then width - r else x1
  let vx2 := if x1 + r > width then -|vx1| else vx1
  let y1 := if y0 - r < 0 then r else y0
  let vy1 := if y0 - r < 0 then |vy0| else vy0
  let y2 := if y1 + r > height then height - r else y1
  let vy2 := if y1 + r > height then -|vy1| else vy1
  { p with position := (x2, y2), velocity := (vx2, vy2) }

/-- Simulation._handle_boundary_collisions: reflect every particle when
bounds are set, otherwise do nothing. -/
def Simulation.handle_boundary_collisions (s : Simulation) : Simulation :=
  match s.bounds with
  | none => s
  | some wh => { s with particles := s.particles.map (reflectBoundary wh.1 wh.2) }

/-- Simulation._resolve_collision: elastic impulse with restitution 1,
followed by a positional correction of overlap/2 + 0.01 on each body.
Degenerate coincident centers or separating velocities skip resolution. -/
def resolve_collision (p1 p2 : Particle) : Particle × Particle :=
  let pos1 := p1.position
  let pos2 := p2.position
  let vel1 := p1.velocity
  let vel2 := p2.velocity
  let m1 := p1.mass
  let m2 := p2.mass
  let normal0 := pos1 - pos2
  let distance := vnorm normal0
  if distance = 0 then (p1, p2)
  else
    let normal := (1 / distance) • normal0
    let relVel := vel1 - vel2
    let velAlongNormal := dot relVel normal
    if velAlongNormal > 0 then (p1, p2)
    else
      let impulse := -2 * velAlongNormal / (1 / m1 + 1 / m2)
      let vel1' := vel1 + (impulse / m1) • normal
      let vel2' := vel2 - (impulse / m2) • normal
      let overlap := (p1.radius + p2.radius) - distance
      let q1 :=
        if overlap > 0 then
          { p1 with velocity := vel1',
                    position := pos1 + (overlap / 2 + 0.01) • normal }
        else { p1 with velocity := vel1' }
      let q2 :=
        if overlap > 0 then
          { p2 with velocity := vel2',
                    position := pos2 - (overlap / 2 + 0.01) • normal }
        else { p2 with velocity := vel2' }
      (q1, q2)

/-- One iteration of the inner loop of
Simulation._handle_particle_collisions: fetch particles i and j from the
current list, resolve if they collide, and write both back. -/
def pairUpdate (ps : List Particle) (i j : Nat) : List Particle :=
  match ps.get? i, ps.get? j with
  | some p1, some p2 =>
      if p1.collides_with p2 then
        let q := resolve_collision p1 p2
        (ps.set i q.1).set j q.2
      else ps
  | _, _ => ps

/-- Simulation._handle_particle_collisions: exhaustive pairwise scan over
all pairs (i, j) with i < j in ascending lexicographic order, threading
the mutated particle list through. -/
def handle_particle_collisions (ps : List Particle) : List Particle :=
  let n := ps.length
  (List.range n).foldl
    (fun acc i =>
      ((List.range n).drop (i + 1)).foldl (fun acc2 j => pairUpdate acc2 i j) acc)
    ps

/-- The mutation part of Simulation.step (everything after the dt
validation): integrate every particle, reflect at the bounds when set,
resolve pairwise collisions, advance the clock. -/
def Simulation.stepP (s : Simulation) (dt : ℝ) : Simulation :=
  let s1 := { s with particles := s.particles.map (fun p => Particle.update p dt s.gravity) }
  let s2 := s1.handle_boundary_collisions
  { s2 with particles := handle_particle_collisions s2.particles,
            time := s2.time + dt }

/-- Simulation.step: raises InvalidParameter when dt ≤ 0, otherwise
performs the step. -/
def Simulation.step (s : Simulation) (dt : ℝ) : Except SimError Simulation :=
  if dt ≤ 0 then .error .invalidParameter
  else .ok (s.stepP dt)

/-- Simulation.total_kinetic_energy: sum over all particles. -/
def Simulation.total_kinetic_energy (s : Simulation) : ℝ :=
  (s.particles.map Particle.kinetic_energy).sum

/-- Simulation.total_momentum: sum over all particles (empty sum is (0,0)). -/
def Simulation.total_momentum (s : Simulation) : Vec2 :=
  (s.particles.map Particle.momentum).sum

/-- Python int() conversion of a real: truncation toward zero. -/
def pyInt (x : ℝ) : ℤ := if 0 ≤ x then ⌊x⌋ else ⌈x⌉

/-- The loop of Simulation.run: n times, record every particle's current
position and then step; a failing step aborts the whole run with its
error, exactly as the Python exception propagates. -/
def runAux (dt : ℝ) : Nat → Simulation → Except SimError (List (List Vec2) × Simulation)
  | 0, s => .ok (s.particles.map (fun _ => []), s)
  | n + 1, s =>
      match s.step dt with
      | .error e => .error e
      | .ok s' =>
          match runAux dt n s' with
          | .error e => .error e
          | .ok r =>
              .ok (List.zipWith (fun (p : Particle) (h : List Vec2) => p.position :: h)
                     s.particles r.1, r.2)

/-- Simulation.run: num_steps = int(duration / dt) iterations of
record-then-step, returning one history per particle in collection order. -/
def Simulation.run (s : Simulation) (duration dt : ℝ) :
    Except SimError (List (List Vec2) × Simulation) :=
  runAux dt (pyInt (duration / dt)).toNat s

/-- Simulation.remove_particle.  Python's list.remove compares entries
with ==, which for Particle (no custom __eq__) is object identity;
object identity is modelled by tagging each collection entry with a
token, so removal matches the token, never the particle value. -/
def remove_particle (target : Nat) :
    List (Nat × Particle) → List (Nat × Particle) × Bool
  | [] => ([], false)
  | e :: rest =>
      if e.1 = target then (rest, true)
      else
        let r := remove_particle target rest
        (e :: r.1, r.2)

/-! ## Helper lemmas -/

lemma dot_self_nonneg (a : Vec2) : 0 ≤ dot a a := by
  simp only [dot]
  nlinarith [sq_nonneg a.1, sq_nonneg a.2]

lemma vnorm_sq (a : Vec2) : vnorm a ^ 2 = dot a a :=
  Real.sq_sqrt (dot_self_nonneg a)

lemma dot_normal_self (d : Vec2) (h : vnorm d ≠ 0) :
    dot ((1 / vnorm d) • d) ((1 / vnorm d) • d) = 1 := by
  have h2 : vnorm d ^ 2 = d.1 * d.1 + d.2 * d.2 := by
    simpa [dot] using vnorm_sq d
  simp only [dot, Prod.smul_fst, Prod.smul_snd, smul_eq_mul]
  field_simp
  linear_combination -h2

lemma momentum_conserved_vec (m1 m2 j : ℝ) (v1 v2 n : Vec2)
    (hm1 : m1 ≠ 0) (hm2 : m2 ≠ 0) :
    m1 • (v1 + (j / m1) • n) + m2 • (v2 - (j / m2) • n) = m1 • v1 + m2 • v2 := by
  apply Prod.ext <;>
    simp only [Prod.fst_add, Prod.snd_add, Prod.fst_sub, Prod.snd_sub,
      Prod.smul_fst, Prod.smul_snd, smul_eq_mul] <;>
    field_simp <;> ring

lemma ke_conserved_vec (m1 m2 j : ℝ) (v1 v2 n : Vec2)
    (hm1 : 0 < m1) (hm2 : 0 < m2) (hn : dot n n = 1)
    (hj : j = -2 * dot (v1 - v2) n / (1 / m1 + 1 / m2)) :
    0.5 * m1 * dot (v1 + (j / m1) • n) (v1 + (j / m1) • n)
      + 0.5 * m2 * dot (v2 - (j / m2) • n) (v2 - (j / m2) • n)
    = 0.5 * m1 * dot v1 v1 + 0.5 * m2 * dot v2 v2 := by
  have hm1' : m1 ≠ 0 := ne_of_gt hm1
  have hm2' : m2 ≠ 0 := ne_of_gt hm2
  have hS : 1 / m1 + 1 / m2 ≠ 0 := by positivity
  have expand :
      0.5 * m1 * dot (v1 + (j / m1) • n) (v1 + (j / m1) • n)
        + 0.5 * m2 * dot (v2 - (j / m2) • n) (v2 - (j / m2) • n)
      = 0.5 * m1 * dot v1 v1 + 0.5 * m2 * dot v2 v2
          + j * dot (v1 - v2) n + j ^ 2 / 2 * (1 / m1 + 1 / m2) * dot n n := by
    simp only [dot, Prod.fst_add, Prod.snd_add, Prod.fst_sub, Prod.snd_sub,
      Prod.smul_fst, Prod.smul_snd, smul_eq_mul]
    field_simp
    ring
  rw [expand, hn, mul_one, hj]
  field_simp
  ring

lemma resolve_collision_momentum (p1 p2 : Particle)
    (hm1 : p1.mass ≠ 0) (hm2 : p2.mass ≠ 0) :
    (resolve_collision p1 p2).1.momentum + (resolve_collision p1 p2).2.momentum
      = p1.momentum + p2.momentum := by
  simp only [resolve_collision]
  split_ifs with h1 h2 h3 <;>
    simp only [Particle.momentum] <;>
    first
      | rfl
      | exact momentum_conserved_vec _ _ _ _ _ _ hm1 hm2

lemma resolve_collision_ke (p1 p2 : Particle)
    (hm1 : 0 < p1.mass) (hm2 : 0 < p2.mass) :
    (resolve_collision p1 p2).1.kinetic_energy + (resolve_collision p1 p2).2.kinetic_energy
      = p1.kinetic_energy + p2.kinetic_energy := by
  simp only [resolve_collision]
  split_ifs with h1 h2 h3 <;>
    simp only [Particle.kinetic_energy] <;>
    first
      | rfl
      | exact ke_conserved_vec p1.mass p2.mass _ p1.velocity p2.velocity _
          hm1 hm2 (dot_normal_self _ h1) rfl

lemma update_zero_gravity_velocity (p : Particle) (dt : ℝ) :
    (p.update dt (0, 0)).velocity = p.velocity := by
  show p.velocity + dt • ((0 : ℝ), (0 : ℝ)) = p.velocity
  apply Prod.ext <;>
    simp [Prod.smul_fst, Prod.smul_snd, smul_eq_mul]

lemma update_zero_gravity_momentum (p : Particle) (dt : ℝ) :
    (p.update dt (0, 0)).momentum = p.momentum := by
  simp only [Particle.momentum, update_zero_gravity_velocity]
  rfl

lemma update_zero_gravity_ke (p : Particle) (dt : ℝ) :
    (p.update dt (0, 0)).kinetic_energy = p.kinetic_energy := by
  simp only [Particle.kinetic_energy, update_zero_gravity_velocity]
  rfl

lemma two_particle_collisions (x y : Particle) :
    handle_particle_collisions [x, y] = pairUpdate [x, y] 0 1 := rfl

lemma pairUpdate_01 (x y : Particle) :
    pairUpdate [x, y] 0 1 =
      if x.collides_with y then
        [(resolve_collision x y).1, (resolve_collision x y).2]
      else [x, y] := rfl

lemma stepP_two (s : Simulation) (a b : Particle) (dt : ℝ)
    (hp : s.particles = [a, b]) (hg : s.gravity = (0, 0)) (hb : s.bounds = none) :
    (s.stepP dt).particles =
      pairUpdate [a.update dt (0, 0), b.update dt (0, 0)] 0 1 := by
  simp only [Simulation.stepP, Simulation.handle_boundary_collisions, hp, hg, hb,
    List.map]
  rfl

lemma update_mass (p : Particle) (dt : ℝ) (a : Vec2) :
    (p.update dt a).mass = p.mass := rfl

/-! ## Claim theorems -/

/-- C1: Particle.update is a semi-implicit Euler step, updating velocity
first and then position with the new velocity; with acceleration (0,-10),
no bounds, one particle at (0,100) with velocity (0,0), one Step(1.0)
yields velocity (0,-10) and position (0,90). -/
theorem update_semiImplicitEuler_scenario :
    (∀ (p : Particle) (dt : ℝ) (a : Vec2),
        (p.update dt a).velocity = p.velocity + dt • a ∧
        (p.update dt a).position = p.position + dt • (p.velocity + dt • a) ∧
        (p.update dt a).mass = p.mass ∧ (p.update dt a).radius = p.radius) ∧
    Simulation.step ⟨[⟨(0, 100), (0, 0), 1, 1⟩], (0, -10), none, 0⟩ 1 =
      Except.ok ⟨[⟨(0, 90), (0, -10), 1, 1⟩], (0, -10), none, 1⟩ := by
  constructor
  · intro p dt a
    refine ⟨rfl, rfl, rfl, rfl⟩
  · show Simulation.step _ 1 = _
    rw [Simulation.step, if_neg (by norm_num)]
    rw [Simulation.stepP]
    simp only [Simulation.handle_boundary_collisions]
    rw [handle_particle_collisions]
    simp only [List.map, Particle.update, List.length_cons, List.length_nil]
    norm_num [List.range_succ, Prod.smul_mk, smul_eq_mul, Prod.ext_iff]

/-- C4: Step(dt) with dt ≤ 0 fails with InvalidParameter; in this
functional model no successor state is produced, so no mutation occurs. -/
theorem step_nonpositive_dt_error (s : Simulation) (dt : ℝ) (h : dt ≤ 0) :
    s.step dt = Except.error SimError.invalidParameter := by
  rw [Simulation.step, if_pos h]

/-- Witness for step_nonpositive_dt_error at dt = 0 on an empty world. -/
theorem step_nonpositive_dt_error_witness :
    (0 : ℝ) ≤ 0 ∧
      Simulation.step ⟨[], (0, -9.81), none, 0⟩ 0 =
        Except.error SimError.invalidParameter :=
  ⟨le_refl 0, step_nonpositive_dt_error ⟨[], (0, -9.81), none, 0⟩ 0 (le_refl 0)⟩

/-- C2: collision resolution conserves the pair's total momentum exactly,
and a two-particle world with zero acceleration and no bounds has its
total momentum preserved by Step. -/
theorem resolve_and_step_conserve_momentum :
    (∀ p1 p2 : Particle, 0 < p1.mass → 0 < p2.mass →
        (resolve_collision p1 p2).1.momentum + (resolve_collision p1 p2).2.momentum
          = p1.momentum + p2.momentum) ∧
    (∀ (s : Simulation) (a b : Particle) (dt : ℝ),
        s.particles = [a, b] → 0 < a.mass → 0 < b.mass →
        s.gravity = (0, 0) → s.bounds = none → 0 < dt →
        s.step dt = Except.ok (s.stepP dt) ∧
        (s.stepP dt).total_momentum = s.total_momentum) := by
  constructor
  · intro p1 p2 h1 h2
    exact resolve_collision_momentum p1 p2 (ne_of_gt h1) (ne_of_gt h2)
  · intro s a b dt hp hma hmb hg hb hdt
    refine ⟨by rw [Simulation.step, if_neg (not_le.mpr hdt)], ?_⟩
    rw [Simulation.total_momentum, Simulation.total_momentum,
      stepP_two s a b dt hp hg hb, pairUpdate_01, hp]
    by_cases hc : (a.update dt (0, 0)).collides_with (b.update dt (0, 0))
    · rw [if_pos hc]
      simp only [List.map_cons, List.map_nil, List.sum_cons, List.sum_nil, add_zero]
      rw [resolve_collision_momentum _ _
            (by rw [update_mass]; exact ne_of_gt hma)
            (by rw [update_mass]; exact ne_of_gt hmb),
        update_zero_gravity_momentum, update_zero_gravity_momentum]
    · rw [if_neg hc]
      simp only [List.map_cons, List.map_nil, List.sum_cons, List.sum_nil, add_zero]
      rw [update_zero_gravity_momentum, update_zero_gravity_momentum]

/-- Witness for resolve_and_step_conserve_momentum on a concrete
two-particle world. -/
theorem resolve_and_step_conserve_momentum_witness :
    ((0 : ℝ) < 1) ∧ ((0 : ℝ) < 0.1) ∧
    ((resolve_collision ⟨(0, 0), (1, 0), 1, 1⟩ ⟨(1.5, 0), (-1, 0), 1, 1⟩).1.momentum +
        (resolve_collision ⟨(0, 0), (1, 0), 1, 1⟩ ⟨(1.5, 0), (-1, 0), 1, 1⟩).2.momentum
      = Particle.momentum ⟨(0, 0), (1, 0), 1, 1⟩ + Particle.momentum ⟨(1.5, 0), (-1, 0), 1, 1⟩) ∧
    (Simulation.step ⟨[⟨(0, 0), (1, 0), 1, 1⟩, ⟨(1.5, 0), (-1, 0), 1, 1⟩], (0, 0), none, 0⟩ 0.1
        = Except.ok (Simulation.stepP ⟨[⟨(0, 0), (1, 0), 1, 1⟩, ⟨(1.5, 0), (-1, 0), 1, 1⟩], (0, 0), none, 0⟩ 0.1) ∧
      (Simulation.stepP ⟨[⟨(0, 0), (1, 0), 1, 1⟩, ⟨(1.5, 0), (-1, 0), 1, 1⟩], (0, 0), none, 0⟩ 0.1).total_momentum
        = Simulation.total_momentum ⟨[⟨(0, 0), (1, 0), 1, 1⟩, ⟨(1.5, 0), (-1, 0), 1, 1⟩], (0, 0), none, 0⟩) :=
  ⟨by norm_num, by norm_num,
    resolve_and_step_conserve_momentum.1 _ _ (by norm_num) (by norm_num),
    resolve_and_step_conserve_momentum.2 _ _ _ 0.1 rfl (by norm_num) (by norm_num)
      rfl rfl (by norm_num)⟩

/-- C3: collision resolution (restitution 1) conserves the pair's total
kinetic energy exactly, and a two-particle world with zero acceleration
and no bounds has its total kinetic energy preserved by Step. -/
theorem resolve_and_step_conserve_kinetic_energy :
    (∀ p1 p2 : Particle, 0 < p1.mass → 0 < p2.mass →
        (resolve_collision p1 p2).1.kinetic_energy + (resolve_collision p1 p2).2.kinetic_energy
          = p1.kinetic_energy + p2.kinetic_energy) ∧
    (∀ (s : Simulation) (a b : Particle) (dt : ℝ),
        s.particles = [a, b] → 0 < a.mass → 0 < b.mass →
        s.gravity = (0, 0) → s.bounds = none → 0 < dt →
        s.step dt = Except.ok (s.stepP dt) ∧
        (s.stepP dt).total_kinetic_energy = s.total_kinetic_energy) := by
  constructor
  · intro p1 p2 h1 h2
    exact resolve_collision_ke p1 p2 h1 h2
  · intro s a b dt hp hma hmb hg hb hdt
    refine ⟨by rw [Simulation.step, if_neg (not_le.mpr hdt)], ?_⟩
    rw [Simulation.total_kinetic_energy, Simulation.total_kinetic_energy,
      stepP_two s a b dt hp hg hb, pairUpdate_01, hp]
    by_cases hc : (a.update dt (0, 0)).collides_with (b.update dt (0, 0))
    · rw [if_pos hc]
      simp only [List.map_cons, List.map_nil, List.sum_cons, List.sum_nil, add_zero]
      rw [resolve_collision_ke _ _
            (by rw [update_mass]; exact hma)
            (by rw [update_mass]; exact hmb),
        update_zero_gravity_ke, update_zero_gravity_ke]
    · rw [if_neg hc]
      simp only [List.map_cons, List.map_nil, List.sum_cons, List.sum_nil, add_zero]
      rw [update_zero_gravity_ke, update_zero_gravity_ke]

/-- Witness for resolve_and_step_conserve_kinetic_energy on a concrete
two-particle world. -/
theorem resolve_and_step_conserve_kinetic_energy_witness :
    ((0 : ℝ) < 2) ∧ ((0 : ℝ) < 0.5) ∧
    ((resolve_collision ⟨(0, 0), (2, 0), 2, 1⟩ ⟨(1, 1), (0, 0), 1, 1⟩).1.kinetic_energy +
        (resolve_collision ⟨(0, 0), (2, 0), 2, 1⟩ ⟨(1, 1), (0, 0), 1, 1⟩).2.kinetic_energy
      = Particle.kinetic_energy ⟨(0, 0), (2, 0), 2, 1⟩ + Particle.kinetic_energy ⟨(1, 1), (0, 0), 1, 1⟩) ∧
    (Simulation.step ⟨[⟨(0, 0), (2, 0), 2, 1⟩, ⟨(1, 1), (0, 0), 1, 1⟩], (0, 0), none, 0⟩ 0.5
        = Except.ok (Simulation.stepP ⟨[⟨(0, 0), (2, 0), 2, 1⟩, ⟨(1, 1), (0, 0), 1, 1⟩], (0, 0), none, 0⟩ 0.5) ∧
      (Simulation.stepP ⟨[⟨(0, 0), (2, 0), 2, 1⟩, ⟨(1, 1), (0, 0), 1, 1⟩], (0, 0), none, 0⟩ 0.5).total_kinetic_energy
        = Simulation.total_kinetic_energy ⟨[⟨(0, 0), (2, 0), 2, 1⟩, ⟨(1, 1), (0, 0), 1, 1⟩], (0, 0), none, 0⟩) :=
  ⟨by norm_num, by norm_num,
    resolve_and_step_conserve_kinetic_energy.1 _ _ (by norm_num) (by norm_num),
    resolve_and_step_conserve_kinetic_energy.2 _ _ _ 0.5 rfl (by norm_num) (by norm_num)
      rfl rfl (by norm_num)⟩

/-- C6: collides_with holds exactly when the Euclidean center distance is
strictly below the sum of radii; a pair at distance exactly radius +
other.radius does not collide. -/
theorem collides_with_iff_strict :
    (∀ p q : Particle, p.collides_with q ↔
        Real.sqrt ((p.position.1 - q.position.1) * (p.position.1 - q.position.1) +
            (p.position.2 - q.position.2) * (p.position.2 - q.position.2))
          < p.radius + q.radius) ∧
    (∀ p q : Particle, p.distance_to q = p.radius + q.radius → ¬ p.collides_with q) := by
  constructor
  · intro p q
    unfold Particle.collides_with Particle.distance_to vnorm dot
    simp only [Prod.fst_sub, Prod.snd_sub]
  · intro p q h hc
    unfold Particle.collides_with at hc
    rw [h] at hc
    exact lt_irrefl _ hc

/-- Witness for collides_with_iff_strict: centers at distance 3 with
radii 1 and 2 touch exactly and do not collide. -/
theorem collides_with_iff_strict_witness :
    Particle.distance_to ⟨(0, 0), (0, 0), 1, 1⟩ ⟨(3, 0), (0, 0), 1, 2⟩ =
      Particle.radius ⟨(0, 0), (0, 0), 1, 1⟩ + Particle.radius ⟨(3, 0), (0, 0), 1, 2⟩ ∧
    ¬ Particle.collides_with ⟨(0, 0), (0, 0), 1, 1⟩ ⟨(3, 0), (0, 0), 1, 2⟩ := by
  have hd : Particle.distance_to ⟨(0, 0), (0, 0), 1, 1⟩ ⟨(3, 0), (0, 0), 1, 2⟩ =
      Particle.radius ⟨(0, 0), (0, 0), 1, 1⟩ + Particle.radius ⟨(3, 0), (0, 0), 1, 2⟩ := by
    show Real.sqrt (((0 : ℝ) - 3) * ((0 : ℝ) - 3) + ((0 : ℝ) - 0) * ((0 : ℝ) - 0)) = 1 + 2
    rw [show ((0 : ℝ) - 3) * ((0 : ℝ) - 3) + ((0 : ℝ) - 0) * ((0 : ℝ) - 0) = 3 ^ 2 by
          norm_num,
      Real.sqrt_sq (by norm_num : (0 : ℝ) ≤ 3)]
    norm_num
  exact ⟨hd, collides_with_iff_strict.2 _ _ hd⟩

/-- C10: when a colliding pair with distinct centers has exactly zero
relative velocity along the collision normal, resolution leaves both
velocities unchanged (zero impulse) but still pushes the particles apart
along the normal by overlap/2 + 0.01 each. -/
theorem resolve_zero_normal_velocity (p1 p2 : Particle)
    (hd : vnorm (p1.position - p2.position) ≠ 0)
    (hc : p1.collides_with p2)
    (hv : dot (p1.velocity - p2.velocity)
        ((1 / vnorm (p1.position - p2.position)) • (p1.position - p2.position)) = 0) :
    (resolve_collision p1 p2).1.velocity = p1.velocity ∧
    (resolve_collision p1 p2).2.velocity = p2.velocity ∧
    (resolve_collision p1 p2).1.position = p1.position +
      ((p1.radius + p2.radius - vnorm (p1.position - p2.position)) / 2 + 0.01) •
        ((1 / vnorm (p1.position - p2.position)) • (p1.position - p2.position)) ∧
    (resolve_collision p1 p2).2.position = p2.position -
      ((p1.radius + p2.radius - vnorm (p1.position - p2.position)) / 2 + 0.01) •
        ((1 / vnorm (p1.position - p2.position)) • (p1.position - p2.position)) := by
  have hoverlap : p1.radius + p2.radius - vnorm (p1.position - p2.position) > 0 := by
    unfold Particle.collides_with Particle.distance_to at hc
    linarith
  simp only [resolve_collision, hv, if_neg hd, gt_iff_lt, lt_self_iff_false, if_false,
    if_pos hoverlap]
  norm_num

/-- Witness for resolve_zero_normal_velocity: unit discs at (0,0) and
(1,0), both at rest. -/
theorem resolve_zero_normal_velocity_witness :
    vnorm (Particle.position ⟨(0, 0), (0, 0), 1, 1⟩ - Particle.position ⟨(1, 0), (0, 0), 1, 1⟩) ≠ 0 ∧
    Particle.collides_with ⟨(0, 0), (0, 0), 1, 1⟩ ⟨(1, 0), (0, 0), 1, 1⟩ ∧
    dot (Particle.velocity ⟨(0, 0), (0, 0), 1, 1⟩ - Particle.velocity ⟨(1, 0), (0, 0), 1, 1⟩)
        ((1 / vnorm (Particle.position ⟨(0, 0), (0, 0), 1, 1⟩ - Particle.position ⟨(1, 0), (0, 0), 1, 1⟩)) •
          (Particle.position ⟨(0, 0), (0, 0), 1, 1⟩ - Particle.position ⟨(1, 0), (0, 0), 1, 1⟩)) = 0 ∧
    ((resolve_collision ⟨(0, 0), (0, 0), 1, 1⟩ ⟨(1, 0), (0, 0), 1, 1⟩).1.velocity =
        Particle.velocity ⟨(0, 0), (0, 0), 1, 1⟩ ∧
      (resolve_collision ⟨(0, 0), (0, 0), 1, 1⟩ ⟨(1, 0), (0, 0), 1, 1⟩).2.velocity =
        Particle.velocity ⟨(1, 0), (0, 0), 1, 1⟩ ∧
      (resolve_collision ⟨(0, 0), (0, 0), 1, 1⟩ ⟨(1, 0), (0, 0), 1, 1⟩).1.position =
        Particle.position ⟨(0, 0), (0, 0), 1, 1⟩ +
          ((Particle.radius ⟨(0, 0), (0, 0), 1, 1⟩ + Particle.radius ⟨(1, 0), (0, 0), 1, 1⟩ -
              vnorm (Particle.position ⟨(0, 0), (0, 0), 1, 1⟩ - Particle.position ⟨(1, 0), (0, 0), 1, 1⟩)) / 2 + 0.01) •
            ((1 / vnorm (Particle.position ⟨(0, 0), (0, 0), 1, 1⟩ - Particle.position ⟨(1, 0), (0, 0), 1, 1⟩)) •
              (Particle.position ⟨(0, 0), (0, 0), 1, 1⟩ - Particle.position ⟨(1, 0), (0, 0), 1, 1⟩)) ∧
      (resolve_collision ⟨(0, 0), (0, 0), 1, 1⟩ ⟨(1, 0), (0, 0), 1, 1⟩).2.position =
        Particle.position ⟨(1, 0), (0, 0), 1, 1⟩ -
          ((Particle.radius ⟨(0, 0), (0, 0), 1, 1⟩ + Particle.radius ⟨(1, 0), (0, 0), 1, 1⟩ -
              vnorm (Particle.position ⟨(0, 0), (0, 0), 1, 1⟩ - Particle.position ⟨(1, 0), (0, 0), 1, 1⟩)) / 2 + 0.01) •
            ((1 / vnorm (Particle.position ⟨(0, 0), (0, 0), 1, 1⟩ - Particle.position ⟨(1, 0), (0, 0), 1, 1⟩)) •
              (Particle.position ⟨(0, 0), (0, 0), 1, 1⟩ - Particle.position ⟨(1, 0), (0, 0), 1, 1⟩))) := by
  have hd1 : vnorm (((0, 0) : Vec2) - (1, 0)) = 1 := by
    show Real.sqrt (((0 : ℝ) - 1) * ((0 : ℝ) - 1) + ((0 : ℝ) - 0) * ((0 : ℝ) - 0)) = 1
    rw [show ((0 : ℝ) - 1) * ((0 : ℝ) - 1) + ((0 : ℝ) - 0) * ((0 : ℝ) - 0) = 1 ^ 2 by
          norm_num,
      Real.sqrt_sq (by norm_num : (0 : ℝ) ≤ 1)]
  have hd : vnorm (Particle.position ⟨(0, 0), (0, 0), 1, 1⟩ -
      Particle.position ⟨(1, 0), (0, 0), 1, 1⟩) ≠ 0 := by
    show vnorm (((0, 0) : Vec2) - (1, 0)) ≠ 0
    rw [hd1]
    norm_num
  have hc : Particle.collides_with ⟨(0, 0), (0, 0), 1, 1⟩ ⟨(1, 0), (0, 0), 1, 1⟩ := by
    show vnorm (((0, 0) : Vec2) - (1, 0)) < 1 + 1
    rw [hd1]
    norm_num
  have hv : dot (Particle.velocity ⟨(0, 0), (0, 0), 1, 1⟩ - Particle.velocity ⟨(1, 0), (0, 0), 1, 1⟩)
      ((1 / vnorm (Particle.position ⟨(0, 0), (0, 0), 1, 1⟩ - Particle.position ⟨(1, 0), (0, 0), 1, 1⟩)) •
        (Particle.position ⟨(0, 0), (0, 0), 1, 1⟩ - Particle.position ⟨(1, 0), (0, 0), 1, 1⟩)) = 0 := by
    show ((0 : ℝ) - 0) * _ + ((0 : ℝ) - 0) * _ = 0
    norm_num
  exact ⟨hd, hc, hv, resolve_zero_normal_velocity _ _ hd hc hv⟩

/-- C5 (amended): when the particle fits the bounds (2*radius ≤ width and
2*radius ≤ height), boundary reflection clamps each violated axis to the
tangent position and re-signs that axis's velocity toward the interior,
both axes independently in the same pass. -/
theorem reflectBoundary_clamps_axes (width height : ℝ) (p : Particle)
    (hw : 2 * p.radius ≤ width) (hh : 2 * p.radius ≤ height) :
    (p.position.1 - p.radius < 0 →
        (reflectBoundary width height p).position.1 = p.radius ∧
        (reflectBoundary width height p).velocity.1 = |p.velocity.1|) ∧
    (p.position.1 + p.radius > width →
        (reflectBoundary width height p).position.1 = width - p.radius ∧
        (reflectBoundary width height p).velocity.1 = -|p.velocity.1|) ∧
    (p.position.2 - p.radius < 0 →
        (reflectBoundary width height p).position.2 = p.radius ∧
        (reflectBoundary width height p).velocity.2 = |p.velocity.2|) ∧
    (p.position.2 + p.radius > height →
        (reflectBoundary width height p).position.2 = height - p.radius ∧
        (reflectBoundary width height p).velocity.2 = -|p.velocity.2|) := by
  refine ⟨?_, ?_, ?_, ?_⟩ <;>
    intro h <;>
    simp only [reflectBoundary] <;>
    split_ifs with h1 h2 <;>
    first
      | exact ⟨rfl, rfl⟩
      | (exact absurd h2 (by push_neg; linarith))
      | (exact absurd h1 (by push_neg; linarith))

/-- Counterexample to C5 as stated: a particle of radius 1 at x = -5 in a
box of width 1 violates the left wall, yet its x is finally clamped to
width - radius = 0, not to radius = 1, because the right-wall check reruns
on the already-clamped coordinate. -/
theorem reflectBoundary_narrow_box_counterexample :
    (Particle.position ⟨(-5, 5), (0, 0), 1, 1⟩).1 - Particle.radius ⟨(-5, 5), (0, 0), 1, 1⟩ < 0 ∧
    (reflectBoundary 1 10 ⟨(-5, 5), (0, 0), 1, 1⟩).position.1 = 0 ∧
    Particle.radius ⟨(-5, 5), (0, 0), 1, 1⟩ = 1 ∧ (0 : ℝ) ≠ 1 := by
  refine ⟨by norm_num, ?_, by norm_num, by norm_num⟩
  simp only [reflectBoundary]
  rw [if_pos (show (-5 : ℝ) - 1 < 0 by norm_num)]
  rw [if_pos (show (1 : ℝ) + 1 > 1 by norm_num)]
  norm_num

/-- Witness for reflectBoundary_clamps_axes: radius-1 particle pushed
through the left and bottom walls of a 10 by 10 box is clamped to (1, 1). -/
theorem reflectBoundary_clamps_axes_witness :
    2 * Particle.radius ⟨(-3, -2), (-4, 7), 1, 1⟩ ≤ 10 ∧
    (Particle.position ⟨(-3, -2), (-4, 7), 1, 1⟩).1 - Particle.radius ⟨(-3, -2), (-4, 7), 1, 1⟩ < 0 ∧
    (Particle.position ⟨(-3, -2), (-4, 7), 1, 1⟩).2 - Particle.radius ⟨(-3, -2), (-4, 7), 1, 1⟩ < 0 ∧
    ((reflectBoundary 10 10 ⟨(-3, -2), (-4, 7), 1, 1⟩).position.1 =
        Particle.radius ⟨(-3, -2), (-4, 7), 1, 1⟩ ∧
      (reflectBoundary 10 10 ⟨(-3, -2), (-4, 7), 1, 1⟩).velocity.1 =
        |(Particle.velocity ⟨(-3, -2), (-4, 7), 1, 1⟩).1|) ∧
    ((reflectBoundary 10 10 ⟨(-3, -2), (-4, 7), 1, 1⟩).position.2 =
        Particle.radius ⟨(-3, -2), (-4, 7), 1, 1⟩ ∧
      (reflectBoundary 10 10 ⟨(-3, -2), (-4, 7), 1, 1⟩).velocity.2 =
        |(Particle.velocity ⟨(-3, -2), (-4, 7), 1, 1⟩).2|) :=
  ⟨by norm_num, by norm_num, by norm_num,
    (reflectBoundary_clamps_axes 10 10 ⟨(-3, -2), (-4, 7), 1, 1⟩
        (by norm_num) (by norm_num)).1 (by norm_num),
    (reflectBoundary_clamps_axes 10 10 ⟨(-3, -2), (-4, 7), 1, 1⟩
        (by norm_num) (by norm_num)).2.2.1 (by norm_num)⟩

/-- C8: Particle construction fails with InvalidParameter for any
non-positive mass or radius, succeeds with the given fields otherwise,
and succeeds at the Python default arguments (0,0), (0,0), 1, 1. -/
theorem make_validation :
    (∀ (pos vel : Vec2) (m r : ℝ), m ≤ 0 ∨ r ≤ 0 →
        Particle.make pos vel m r = .error .invalidParameter) ∧
    (∀ (pos vel : Vec2) (m r : ℝ), 0 < m → 0 < r →
        Particle.make pos vel m r = .ok ⟨pos, vel, m, r⟩) ∧
    Particle.make (0, 0) (0, 0) 1 1 = .ok ⟨(0, 0), (0, 0), 1, 1⟩ := by
  refine ⟨?_, ?_, ?_⟩
  · intro pos vel m r h
    rcases h with h | h
    · rw [Particle.make, if_pos h]
    · rw [Particle.make]
      by_cases hm : m ≤ 0
      · rw [if_pos hm]
      · rw [if_neg hm, if_pos h]
  · intro pos vel m r hm hr
    rw [Particle.make, if_neg (not_le.mpr hm), if_neg (not_le.mpr hr)]
  · rw [Particle.make, if_neg (by norm_num : ¬ (1 : ℝ) ≤ 0),
      if_neg (by norm_num : ¬ (1 : ℝ) ≤ 0)]

/-- Witness for make_validation: mass -1 is rejected, mass 2 radius 3 is
accepted verbatim. -/
theorem make_validation_witness :
    ((-1 : ℝ) ≤ 0 ∨ (1 : ℝ) ≤ 0) ∧
    Particle.make (0, 0) (0, 0) (-1) 1 = .error .invalidParameter ∧
    ((0 : ℝ) < 2 ∧ (0 : ℝ) < 3) ∧
    Particle.make (1, 2) (3, 4) 2 3 = .ok ⟨(1, 2), (3, 4), 2, 3⟩ :=
  ⟨Or.inl (by norm_num), make_validation.1 _ _ _ _ (Or.inl (by norm_num)),
    ⟨by norm_num, by norm_num⟩,
    make_validation.2.1 _ _ _ _ (by norm_num) (by norm_num)⟩

/-- C9: remove_particle removes the first entry whose identity token
matches the target (regardless of the particle values around it),
preserves the order of the remaining entries and returns true; with no
matching entry the collection is unchanged and false is returned. -/
theorem remove_particle_spec :
    (∀ (pre : List (Nat × Particle)) (e : Nat × Particle)
        (post : List (Nat × Particle)) (t : Nat),
        e.1 = t → (∀ x ∈ pre, x.1 ≠ t) →
        remove_particle t (pre ++ e :: post) = (pre ++ post, true)) ∧
    (∀ (l : List (Nat × Particle)) (t : Nat), (∀ x ∈ l, x.1 ≠ t) →
        remove_particle t l = (l, false)) := by
  constructor
  · intro pre e post t he hpre
    induction pre with
    | nil => simp [remove_particle, he]
    | cons a as ih =>
        have ha : a.1 ≠ t := hpre a (List.mem_cons_self a as)
        simp only [List.cons_append, remove_particle, if_neg ha, List.append_eq]
        rw [ih (fun x hx => hpre x (List.mem_cons_of_mem a hx))]
  · intro l t hl
    induction l with
    | nil => rfl
    | cons a as ih =>
        have ha : a.1 ≠ t := hl a (List.mem_cons_self a as)
        simp only [remove_particle, if_neg ha]
        rw [ih (fun x hx => hl x (List.mem_cons_of_mem a hx))]

/-- Witness for remove_particle_spec: two entries holding the very same
particle value but distinct identity tokens; removing token 1 keeps the
value-equal first entry, and removing an absent token returns false. -/
theorem remove_particle_spec_witness :
    remove_particle 1
        [(0, ⟨(0, 0), (0, 0), 1, 1⟩), (1, ⟨(0, 0), (0, 0), 1, 1⟩)] =
      ([(0, ⟨(0, 0), (0, 0), 1, 1⟩)], true) ∧
    remove_particle 5 [(0, ⟨(0, 0), (0, 0), 1, 1⟩)] =
      ([(0, ⟨(0, 0), (0, 0), 1, 1⟩)], false) :=
  ⟨remove_particle_spec.1 [(0, ⟨(0, 0), (0, 0), 1, 1⟩)]
      (1, ⟨(0, 0), (0, 0), 1, 1⟩) [] 1 rfl (by simp),
    remove_particle_spec.2 [(0, ⟨(0, 0), (0, 0), 1, 1⟩)] 5 (by simp)⟩

lemma foldl_length_invariant {α : Type} (f : List Particle → α → List Particle)
    (hf : ∀ a x, (f a x).length = a.length) :
    ∀ (l : List α) (a : List Particle), (l.foldl f a).length = a.length := by
  intro l
  induction l with
  | nil => intro a; rfl
  | cons x xs ih => intro a; rw [List.foldl_cons, ih, hf]

lemma pairUpdate_length (ps : List Particle) (i j : Nat) :
    (pairUpdate ps i j).length = ps.length := by
  cases hi : ps.get? i <;> cases hj : ps.get? j <;>
    simp only [pairUpdate, hi, hj]
  split_ifs <;> simp [List.length_set]

lemma handle_particle_collisions_length (ps : List Particle) :
    (handle_particle_collisions ps).length = ps.length := by
  simp only [handle_particle_collisions]
  refine foldl_length_invariant _ ?_ _ _
  intro a i
  exact foldl_length_invariant _ (fun b j => pairUpdate_length b i j) _ _

lemma stepP_length (s : Simulation) (dt : ℝ) :
    (s.stepP dt).particles.length = s.particles.length := by
  rcases hb : s.bounds with _ | wh <;>
    simp [Simulation.stepP, Simulation.handle_boundary_collisions, hb,
      handle_particle_collisions_length, List.length_map]

lemma step_pos_eq (s : Simulation) (dt : ℝ) (h : 0 < dt) :
    s.step dt = Except.ok (s.stepP dt) := by
  rw [Simulation.step, if_neg (not_le.mpr h)]

lemma runAux_spec (dt : ℝ) (h : 0 < dt) :
    ∀ (n : Nat) (s : Simulation),
      runAux dt n s = Except.ok
        (((List.range s.particles.length).map fun i =>
            (List.range n).map fun k =>
              ((((fun w => Simulation.stepP w dt)^[k]) s).particles.getD i default).position),
          ((fun w => Simulation.stepP w dt)^[n]) s) := by
  intro n
  induction n with
  | zero =>
      intro s
      simp only [runAux, Function.iterate_zero, id_eq]
      congr 1
      refine Prod.ext ?_ rfl
      apply List.ext_getElem
      · simp
      · intro i h1 h2
        simp
  | succ n ih =>
      intro s
      simp only [runAux, step_pos_eq s dt h, ih]
      congr 1
      refine Prod.ext ?_ (Function.iterate_succ_apply _ _ _).symm
      apply List.ext_getElem
      · simp [stepP_length]
      · intro i h1 h2
        have hi : i < s.particles.length := by simpa using h2
        rw [List.getElem_zipWith, List.getElem_map, List.getElem_map,
          List.getElem_range, List.getElem_range,
          List.range_succ_eq_map, List.map_cons, List.map_map]
        congr 1
        rw [Function.iterate_zero, id_eq,
          List.getD_eq_getElem s.particles default hi]

/-- C7: Run(duration, dt) performs floor(duration/dt) steps and returns,
per particle in collection order fixed at call time, one position per
step, the k-th recorded position being the particle's position before the
k-th step; the final world is the floor(duration/dt)-fold step iterate. -/
theorem run_histories (s : Simulation) (duration dt : ℝ)
    (hdt : 0 < dt) (hdur : 0 ≤ duration) :
    s.run duration dt = Except.ok
      (((List.range s.particles.length).map fun i =>
          (List.range (⌊duration / dt⌋).toNat).map fun k =>
            ((((fun w => Simulation.stepP w dt)^[k]) s).particles.getD i default).position),
        ((fun w => Simulation.stepP w dt)^[(⌊duration / dt⌋).toNat]) s) := by
  have hq : 0 ≤ duration / dt := div_nonneg hdur (le_of_lt hdt)
  rw [Simulation.run, pyInt, if_pos hq]
  exact runAux_spec dt hdt _ s

/-- Witness for run_histories: one particle, duration 1.0, dt 0.1. -/
theorem run_histories_witness :
    (0 : ℝ) < 0.1 ∧ (0 : ℝ) ≤ 1 ∧
    Simulation.run ⟨[⟨(0, 0), (1, 0), 1, 1⟩], (0, 0), none, 0⟩ 1 0.1 = Except.ok
      (((List.range (Simulation.particles ⟨[⟨(0, 0), (1, 0), 1, 1⟩], (0, 0), none, 0⟩).length).map fun i =>
          (List.range (⌊(1 : ℝ) / 0.1⌋).toNat).map fun k =>
            ((((fun w => Simulation.stepP w 0.1)^[k]) ⟨[⟨(0, 0), (1, 0), 1, 1⟩], (0, 0), none, 0⟩).particles.getD i default).position),
        ((fun w => Simulation.stepP w 0.1)^[(⌊(1 : ℝ) / 0.1⌋).toNat]) ⟨[⟨(0, 0), (1, 0), 1, 1⟩], (0, 0), none, 0⟩) :=
  ⟨by norm_num, by norm_num,
    run_histories ⟨[⟨(0, 0), (1, 0), 1, 1⟩], (0, 0), none, 0⟩ 1 0.1 (by norm_num) (by norm_num)⟩

end
